import Mathlib

/-!
Shallow embedding of the two command-line tools of this repository:
`pdf_helper.py` (PDF compression and watermarking) and `docx_to_pdf.py`
(DOCX to PDF conversion).  Pure computations (markup wrapping, option
defaulting, save-settings selection, ratio arithmetic and formatting,
canvas coordinate transforms, exit-code logic) are translated directly
from the source; the third-party library calls (pikepdf open/save, pypdf
page reading, reportlab paragraph construction and document build, the
filesystem) are oracles supplied as explicit parameters, so every claim
is settled for all behaviours of those calls.
Python float arithmetic on sizes and ratios is modelled over exact
rationals; the format specifier `:.2f` is modelled as round-half-even on
the exact rational.
-/

/-- Decimal digit characters of a natural number, most significant digit
first.  Structural recursion on a fuel argument (the number itself plus
one always suffices) so that terms reduce definitionally. -/
def natDecimalAux : ℕ → ℕ → List Char
  | 0, _ => []
  | fuel + 1, n =>
    if n < 10 then [Nat.digitChar n]
    else natDecimalAux fuel (n / 10) ++ [Nat.digitChar (n % 10)]

/-- Decimal digit characters of a natural number, most significant first. -/
def natDecimal (n : ℕ) : List Char := natDecimalAux (n + 1) n

/-- Round the fraction `num / den` (with `den` positive) to the nearest
integer, ties to even: the rounding the IEEE-754 formatting of Python's
`:.2f` performs.  Stated on the numerator and denominator with integer
operations only, so that terms reduce definitionally. -/
def roundHalfEvenFrac (num : ℤ) (den : ℕ) : ℤ :=
  let fl := num.fdiv den
  let r := num - fl * den
  if 2 * r < (den : ℤ) then fl
  else if (den : ℤ) < 2 * r then fl + 1
  else if fl % 2 = 0 then fl else fl + 1

/-- Model of the Python format specifier `:.2f` over exact rationals: the
value rounded to two decimal places (the fraction `q * 100` is
`q.num * 100 / q.den`), rendered with exactly two digits after the decimal
point, with a leading minus sign for negative inputs. -/
def formatTwoDec (q : ℚ) : String :=
  let n := roundHalfEvenFrac (q.num * 100) q.den
  let m := n.natAbs
  let sign := if q < 0 then "-" else ""
  sign ++ String.mk (natDecimal (m / 100)) ++ "." ++
    String.mk [Nat.digitChar (m / 10 % 10), Nat.digitChar (m % 10)]

/-- `formatTwoDec` specialised to an integral value: pure integer
arithmetic, so that concrete instances reduce definitionally. -/
def formatTwoDecInt (n : ℤ) : String :=
  let m := (n * 100).natAbs
  (if n < 0 then "-" else "") ++ String.mk (natDecimal (m / 100)) ++ "." ++
    String.mk [Nat.digitChar (m / 10 % 10), Nat.digitChar (m % 10)]

/-- True when the string ends in a percent sign immediately preceded by
exactly two decimal digits after a decimal point, with a nonempty integer
part before the point. -/
def twoDecimalPercentStr (s : String) : Bool :=
  match s.data.reverse with
  | '%' :: d2 :: d1 :: '.' :: rest => d1.isDigit && d2.isDigit && !rest.isEmpty
  | _ => false

/-- The keyword tuple `compress_pdf` passes to `pdf.save` (pikepdf).
`normalize_content` is absent from all but the `extreme` entry; pikepdf's
default for an absent keyword is `False`. -/
structure SaveOptions where
  compress_streams : Bool
  stream_decode_level : ℕ
  object_stream_mode : ℕ
  recompress_flate : Bool
  normalize_content : Bool
  deriving DecidableEq, BEq

/-- `save_options['low']` in `compress_pdf`. -/
def lowOptions : SaveOptions := ⟨true, 0, 0, false, false⟩

/-- `save_options['medium']` in `compress_pdf`. -/
def mediumOptions : SaveOptions := ⟨true, 1, 1, true, false⟩

/-- `save_options['high']` in `compress_pdf`. -/
def highOptions : SaveOptions := ⟨true, 2, 2, true, false⟩

/-- `save_options['extreme']` in `compress_pdf`. -/
def extremeOptions : SaveOptions := ⟨true, 3, 2, true, true⟩

/-- `save_options.get(level, save_options['medium'])` in `compress_pdf`. -/
def saveOptionsFor (level : String) : SaveOptions :=
  if level = "low" then lowOptions
  else if level = "medium" then mediumOptions
  else if level = "high" then highOptions
  else if level = "extreme" then extremeOptions
  else mediumOptions

/-- The JSON dictionary `compress_pdf` returns: the success dictionary with
its five payload fields, or the failure dictionary carrying `str(e)`. -/
inductive CompressResult where
  | ok (original_size compressed_size : ℕ) (saved_bytes : ℤ) (ratioPercent level : String)
  | err (msg : String)
  deriving DecidableEq, BEq

/-- The `success` field of the returned dictionary. -/
def CompressResult.success : CompressResult → Bool
  | .ok _ _ _ _ _ => true
  | .err _ => false

/-- The `compression_ratio` field, absent on failure. -/
def ratioOf : CompressResult → Option String
  | .ok _ _ _ r _ => some r
  | .err _ => none

/-- The `level` field, absent on failure. -/
def levelOf : CompressResult → Option String
  | .ok _ _ _ _ l => some l
  | .err _ => none

/-- The `compressed_size` field, absent on failure. -/
def compressedOf : CompressResult → Option ℕ
  | .ok _ c _ _ _ => some c
  | .err _ => none

/-- Replace the `level` field of a success dictionary; a failure dictionary
has no such field and is unchanged. -/
def setLevel : CompressResult → String → CompressResult
  | .ok o c s r _, l => .ok o c s r l
  | .err e, _ => .err e

/-- Oracle for the external effects of `compress_pdf` on one input/output
path pair: whether `Pdf.open` raises, what `pdf.save` does for a given
settings tuple (raises, or writes an output file of the returned size), and
the size `os.path.getsize` reports for the input. -/
structure CompressEnv where
  openErr : Option String
  save : SaveOptions → Except String ℕ
  inputSize : ℕ

/-- Shallow embedding of `compress_pdf` from `pdf_helper.py`: open the PDF,
save it under the settings tuple for the level (unknown levels fall back to
the `medium` tuple), then compute sizes, saved bytes and the two-decimal
percentage ratio, guarding the division when the input size is zero. -/
def compress_pdf (env : CompressEnv) (level : String) : CompressResult :=
  match env.openErr with
  | some e => .err e
  | none =>
    match env.save (saveOptionsFor level) with
    | .error e => .err e
    | .ok output_size =>
      let input_size := env.inputSize
      let saved_bytes : ℤ := (input_size : ℤ) - (output_size : ℤ)
      let ratioVal : ℚ := if 0 < input_size then (saved_bytes : ℚ) / (input_size : ℚ) * 100 else 0
      .ok input_size output_size saved_bytes (formatTwoDec ratioVal ++ "%") level

/-- The compression-ratio formula in the words of the specification:
`(original - compressed) / original * 100`. -/
def ratioFormula (original compressed : ℕ) : ℚ :=
  ((original : ℚ) - (compressed : ℚ)) / (original : ℚ) * 100

/-- A concrete environment: opening succeeds, saving writes 80 bytes, the
input is 100 bytes. -/
def env80 : CompressEnv := ⟨none, fun _ => Except.ok 80, 100⟩

/-- A concrete environment in which saving enlarges the file: the input is
100 bytes and the written output is 150 bytes. -/
def envEnlarge : CompressEnv := ⟨none, fun _ => Except.ok 150, 100⟩

/-- A concrete environment whose input file is empty (size 0). -/
def cEnvZero : CompressEnv := ⟨none, fun _ => Except.ok 0, 0⟩

lemma formatTwoDec_intCast (n : ℤ) : formatTwoDec ((n : ℚ)) = formatTwoDecInt n := by
  unfold formatTwoDec formatTwoDecInt roundHalfEvenFrac
  rw [Rat.num_intCast, Rat.den_intCast]
  simp only [Nat.cast_one, mul_one, Int.fdiv_one, sub_self]
  norm_num

lemma natDecimal_ne_nil (n : ℕ) : natDecimal n ≠ [] := by
  unfold natDecimal natDecimalAux
  split <;> simp

lemma isDigit_digitChar {n : ℕ} (h : n < 10) : (Nat.digitChar n).isDigit = true := by
  interval_cases n <;> decide

lemma strData_append (s t : String) : (s ++ t).data = s.data ++ t.data := rfl

lemma twoDecimalPercentStr_format (q : ℚ) :
    twoDecimalPercentStr (formatTwoDec q ++ "%") = true := by
  unfold twoDecimalPercentStr formatTwoDec
  rw [strData_append]
  by_cases hq : q < 0 <;>
    simp only [hq, if_pos, if_neg, not_false_iff, strData_append, String.data] <;>
    simp [List.reverse_append,
      isDigit_digitChar (Nat.mod_lt _ (by norm_num) : _ % 10 < 10),
      natDecimal_ne_nil]

/-- C3 counterexample: with a concrete successful environment, `compress`
with the unrecognized level string "bogus" does not return the same result
as `compress` with level "medium": the returned dictionary's `level` field
echoes "bogus" verbatim, so the two results differ. -/
theorem c3_counterexample :
    levelOf (compress_pdf env80 "bogus") = some "bogus" ∧
    levelOf (compress_pdf env80 "medium") = some "medium" ∧
    (levelOf (compress_pdf env80 "bogus") == levelOf (compress_pdf env80 "medium")) = false :=
  ⟨rfl, rfl, rfl⟩

/-- C3 (amended): for every level string outside the four known values,
`compress_pdf` uses the same save-settings tuple as "medium" and returns
the same result as "medium" except that the `level` field of a success
dictionary echoes the unrecognized string verbatim. -/
theorem c3_theorem (env : CompressEnv) (level : String)
    (h : level ∉ (["low", "medium", "high", "extreme"] : List String)) :
    saveOptionsFor level = saveOptionsFor "medium" ∧
    compress_pdf env level = setLevel (compress_pdf env "medium") level := by
  simp only [List.mem_cons, List.mem_singleton, not_or, List.not_mem_nil] at h
  obtain ⟨h1, h2, h3, h4, -⟩ := h
  have hs : saveOptionsFor level = saveOptionsFor "medium" := by
    unfold saveOptionsFor
    rw [if_neg h1, if_neg h2, if_neg h3, if_neg h4]
    rfl
  refine ⟨hs, ?_⟩
  unfold compress_pdf
  rw [hs]
  cases env.openErr with
  | some e => rfl
  | none =>
    cases env.save (saveOptionsFor "medium") with
    | error e => rfl
    | ok out => rfl

/-- C3 witness: the amended statement at the concrete level "bogus" in a
concrete successful environment. -/
theorem c3_witness :
    saveOptionsFor "bogus" = saveOptionsFor "medium" ∧
    compress_pdf env80 "bogus" = setLevel (compress_pdf env80 "medium") "bogus" :=
  c3_theorem env80 "bogus" (by decide)

lemma compress_pdf_ok (env : CompressEnv) (level : String) (out : ℕ)
    (ho : env.openErr = none) (hs : env.save (saveOptionsFor level) = Except.ok out) :
    compress_pdf env level =
      .ok env.inputSize out ((env.inputSize : ℤ) - (out : ℤ))
        (formatTwoDec (if 0 < env.inputSize then
            ((((env.inputSize : ℤ) - (out : ℤ)) : ℤ) : ℚ) / (env.inputSize : ℚ) * 100
          else 0) ++ "%") level := by
  unfold compress_pdf
  rw [ho, hs]

lemma ratio_eq_formula (env : CompressEnv) (level : String) (out : ℕ)
    (ho : env.openErr = none)
    (hs : env.save (saveOptionsFor level) = Except.ok out)
    (hp : 0 < env.inputSize) :
    ratioOf (compress_pdf env level) =
      some (formatTwoDec (ratioFormula env.inputSize out) ++ "%") := by
  rw [compress_pdf_ok env level out ho hs]
  simp only [ratioOf, Option.some.injEq]
  rw [if_pos hp]
  congr 2
  unfold ratioFormula
  push_cast
  ring

/-- C4: on a successful save, the reported `compression_ratio` equals the
specification's formula `(original - compressed) / original * 100` rendered
with exactly two decimal digits and a percent sign; when the input file
size is 0 the guarded ratio is reported as "0.00%". -/
theorem c4_theorem (env : CompressEnv) (level : String) (out : ℕ)
    (ho : env.openErr = none)
    (hs : env.save (saveOptionsFor level) = Except.ok out) :
    (env.inputSize = 0 → ratioOf (compress_pdf env level) = some "0.00%") ∧
    (0 < env.inputSize →
      ratioOf (compress_pdf env level) =
        some (formatTwoDec (ratioFormula env.inputSize out) ++ "%")) := by
  constructor
  · intro hz
    rw [compress_pdf_ok env level out ho hs, hz]
    norm_num [ratioOf]
    rw [show (0 : ℚ) = ((0 : ℤ) : ℚ) by norm_num, formatTwoDec_intCast]
    decide
  · exact ratio_eq_formula env level out ho hs

/-- C4 witness: a concrete environment whose input file is empty; the
reported ratio is the guarded "0.00%". -/
theorem c4_witness : ratioOf (compress_pdf cEnvZero "medium") = some "0.00%" :=
  (c4_theorem cEnvZero "medium" 0 rfl rfl).1 rfl

/-- C5 counterexample: in a concrete environment where saving enlarges the
file (input 100 bytes, output 150 bytes), `compress` succeeds but reports
the negative ratio "-50.00%" — the ratio is not non-negative as claimed. -/
theorem c5_counterexample :
    (compress_pdf envEnlarge "low").success = true ∧
    ratioOf (compress_pdf envEnlarge "low") = some "-50.00%" ∧
    "-50.00%".data.head? = some '-' := by
  refine ⟨rfl, ?_, rfl⟩
  rw [compress_pdf_ok envEnlarge "low" 150 rfl rfl]
  simp only [ratioOf, Option.some.injEq]
  have harg : (if 0 < envEnlarge.inputSize then
      ((((envEnlarge.inputSize : ℤ) - ((150 : ℕ) : ℤ)) : ℤ) : ℚ) / (envEnlarge.inputSize : ℚ) * 100
    else 0) = ((-50 : ℤ) : ℚ) := by
    norm_num [envEnlarge]
  rw [harg, formatTwoDec_intCast]
  decide

/-- C5 (amended): for every level whose save succeeds on a non-empty input,
`compress` returns success with the written output size and a ratio string
carrying exactly two decimal digits; the ratio value is negative (the
string then starts with a minus sign) exactly when the output file is
larger than the input — it is not clamped to non-negative. -/
theorem c5_theorem (env : CompressEnv) (level : String) (out : ℕ)
    (ho : env.openErr = none)
    (hs : env.save (saveOptionsFor level) = Except.ok out)
    (hp : 0 < env.inputSize) :
    (compress_pdf env level).success = true ∧
    compressedOf (compress_pdf env level) = some out ∧
    ratioOf (compress_pdf env level) =
      some (formatTwoDec (ratioFormula env.inputSize out) ++ "%") ∧
    twoDecimalPercentStr (formatTwoDec (ratioFormula env.inputSize out) ++ "%") = true ∧
    (ratioFormula env.inputSize out < 0 ↔ env.inputSize < out) := by
  refine ⟨?_, ?_, ratio_eq_formula env level out ho hs hp, twoDecimalPercentStr_format _, ?_⟩
  · rw [compress_pdf_ok env level out ho hs]; rfl
  · rw [compress_pdf_ok env level out ho hs]; rfl
  · unfold ratioFormula
    have h2 : (0 : ℚ) < (env.inputSize : ℚ) := by exact_mod_cast hp
    constructor
    · intro hneg
      by_contra hle
      push_neg at hle
      have hc : (out : ℚ) ≤ (env.inputSize : ℚ) := by exact_mod_cast hle
      have : (0 : ℚ) ≤ ((env.inputSize : ℚ) - (out : ℚ)) / (env.inputSize : ℚ) * 100 := by
        apply mul_nonneg
        · apply div_nonneg
          · linarith
          · linarith
        · norm_num
      linarith
    · intro hlt
      have h1 : ((env.inputSize : ℚ) - (out : ℚ)) < 0 := by
        have : (env.inputSize : ℚ) < (out : ℚ) := by exact_mod_cast hlt
        linarith
      have h3 := div_neg_of_neg_of_pos h1 h2
      linarith

/-- C5 witness: the amended statement at the concrete level "low" in a
concrete successful environment (input 100 bytes, output 80 bytes). -/
theorem c5_witness :
    (compress_pdf env80 "low").success = true ∧
    compressedOf (compress_pdf env80 "low") = some 80 ∧
    ratioOf (compress_pdf env80 "low") =
      some (formatTwoDec (ratioFormula 100 80) ++ "%") ∧
    twoDecimalPercentStr (formatTwoDec (ratioFormula 100 80) ++ "%") = true ∧
    (ratioFormula 100 80 < 0 ↔ 100 < 80) :=
  c5_theorem env80 "low" 80 rfl rfl (by decide)

/-- A DOCX run: a span of text with its three formatting flags (python-docx
reports `None` for an unset flag, which Python's `if` treats as false). -/
structure Run where
  text : String
  bold : Bool
  italic : Bool
  underline : Bool
  deriving DecidableEq, BEq

/-- The per-run markup wrapping inside the loop of `parse_docx_paragraph`:
the successive reassignments `text = f"<b>{text}</b>"` and so on. -/
def formatRun (r : Run) : String :=
  let text := r.text
  let text := if r.bold then "<b>" ++ text ++ "</b>" else text
  let text := if r.italic then "<i>" ++ text ++ "</i>" else text
  let text := if r.underline then "<u>" ++ text ++ "</u>" else text
  text

/-- Shallow embedding of `parse_docx_paragraph` from `docx_to_pdf.py`:
runs with empty text are skipped, every other run is wrapped per its flags
and the parts are joined. -/
def parse_docx_paragraph (runs : List Run) : String :=
  String.join (runs.foldl
    (fun text_parts r => if r.text = "" then text_parts else text_parts ++ [formatRun r]) [])

/-- Wrap a string in an HTML-like tag pair. -/
def wrapTag (tag s : String) : String := "<" ++ tag ++ ">" ++ s ++ "</" ++ tag ++ ">"

/-- Conditionally wrap a string in a tag pair. -/
def wrapIf (b : Bool) (tag s : String) : String := if b then wrapTag tag s else s

/-- The nesting the claim describes: bold outermost, then italic, then
underline innermost around the run's text. -/
def claimNestedRun (r : Run) : String :=
  wrapIf r.bold "b" (wrapIf r.italic "i" (wrapIf r.underline "u" r.text))

/-- The nesting the code produces: bold is applied first, so underline is
outermost, then italic, then bold innermost around the run's text. -/
def amendedNestedRun (r : Run) : String :=
  wrapIf r.underline "u" (wrapIf r.italic "i" (wrapIf r.bold "b" r.text))

/-- C2 counterexample: a run with all three flags set is rendered with
underline outermost and bold innermost, not bold outermost as claimed. -/
theorem c2_counterexample :
    formatRun ⟨"x", true, true, true⟩ = "<u><i><b>x</b></i></u>" ∧
    claimNestedRun ⟨"x", true, true, true⟩ = "<b><i><u>x</u></i></b>" ∧
    (formatRun ⟨"x", true, true, true⟩ == claimNestedRun ⟨"x", true, true, true⟩) = false := by
  refine ⟨rfl, rfl, ?_⟩
  decide

/-- C2 (amended): every run with text is wrapped according to its three
flags independently, with nesting order underline outermost, then italic,
then bold innermost; runs are never merged — the paragraph text is the
concatenation of each nonempty run's individually wrapped text. -/
theorem c2_theorem :
    (∀ r : Run, formatRun r = amendedNestedRun r) ∧
    (∀ runs : List Run,
      parse_docx_paragraph runs =
        String.join ((runs.filter (fun r => !(r.text == ""))).map formatRun)) := by
  constructor
  · rintro ⟨t, b, i, u⟩
    cases b <;> cases i <;> cases u <;>
      simp [formatRun, amendedNestedRun, wrapIf, wrapTag, String.append_assoc]
  · intro runs
    unfold parse_docx_paragraph
    congr 1
    have key : ∀ (l : List Run) (acc : List String),
        l.foldl (fun text_parts r =>
          if r.text = "" then text_parts else text_parts ++ [formatRun r]) acc =
          acc ++ (l.filter (fun r => !(r.text == ""))).map formatRun := by
      intro l
      induction l with
      | nil => intro acc; simp
      | cons hd tl ih =>
        intro acc
        by_cases h : hd.text = ""
        · simp [List.foldl_cons, h, ih]
        · simp [List.foldl_cons, h, ih, List.append_assoc]
    simpa using key runs []

/-- The reportlab alignment constants TA_LEFT, TA_CENTER, TA_RIGHT,
TA_JUSTIFY. -/
inductive Align where
  | left
  | center
  | right
  | justify
  deriving DecidableEq, BEq

/-- Shallow embedding of `get_alignment` from `docx_to_pdf.py`: a missing
paragraph alignment maps to left; the WD_ALIGN_PARAGRAPH enum values
CENTER (1), RIGHT (2) and JUSTIFY (3) map to their reportlab counterparts;
every other value falls through to left. -/
def get_alignment (alignment : Option ℕ) : Align :=
  match alignment with
  | none => .left
  | some v =>
    if v = 1 then .center
    else if v = 2 then .right
    else if v = 3 then .justify
    else .left

/-- The fields of the `ParagraphStyle` objects `docx_to_pdf` constructs:
name, parent style sheet entry, font size, space before/after, alignment. -/
structure PStyle where
  name : String
  parent : String
  fontSize : ℚ
  spaceBefore : ℚ
  spaceAfter : ℚ
  alignment : Align
  deriving DecidableEq, BEq

/-- A DOCX paragraph: its runs, its style name and its alignment enum
value (absent when python-docx reports `None`). -/
structure Paragraph where
  runs : List Run
  styleName : String
  alignment : Option ℕ
  deriving DecidableEq, BEq

/-- Whether the character list `p` occurs contiguously inside `l`
(Python's `in` on strings). -/
def hasSubstr : List Char → List Char → Bool
  | [], p => p.isEmpty
  | c :: t, p => p.isPrefixOf (c :: t) || hasSubstr t p

/-- Python's `pat in s` on strings. -/
def containsSub (s pat : String) : Bool := hasSubstr s.data pat.data

/-- The style-selection chain of `docx_to_pdf`: substring-match the
paragraph's style name against "Heading 1"/"Title", "Heading 2",
"Heading 3", else the normal body style; each tier fixes name, parent,
font size and spacing, and all honor the paragraph's resolved alignment.
The normal tier sets no `spaceBefore`; reportlab's default is 0. -/
def styleFor (para : Paragraph) : PStyle :=
  if containsSub para.styleName "Heading 1" || containsSub para.styleName "Title" then
    ⟨"CustomHeading1", "Heading1", 18, 12, 12, get_alignment para.alignment⟩
  else if containsSub para.styleName "Heading 2" then
    ⟨"CustomHeading2", "Heading2", 14, 10, 10, get_alignment para.alignment⟩
  else if containsSub para.styleName "Heading 3" then
    ⟨"CustomHeading3", "Heading3", 12, 8, 8, get_alignment para.alignment⟩
  else
    ⟨"CustomNormal", "Normal", 11, 0, 6, get_alignment para.alignment⟩

/-- The flowables `docx_to_pdf` appends to `story`: spacers (height in
points), styled text paragraphs, and tables of cell text. -/
inductive Flowable where
  | spacer (height : ℚ)
  | par (text : String) (style : PStyle)
  | table (data : List (List String))
  deriving DecidableEq, BEq

/-- Replace every non-overlapping occurrence of `pat` by `rep`, scanning
left to right (Python's `str.replace`).  Structural recursion on a fuel
argument (the list's length always suffices) so that terms reduce
definitionally; an empty pattern is returned unchanged (the converter only
replaces nonempty tag strings). -/
def replaceAllAux (pat rep : List Char) : ℕ → List Char → List Char
  | 0, l => l
  | _ + 1, [] => []
  | fuel + 1, c :: t =>
    if pat.isPrefixOf (c :: t) && !pat.isEmpty then
      rep ++ replaceAllAux pat rep fuel (t.drop (pat.length - 1))
    else c :: replaceAllAux pat rep fuel t

/-- Python's `str.replace(pat, rep)` on strings as character lists. -/
def replaceAll (pat rep l : List Char) : List Char := replaceAllAux pat rep l.length l

/-- The fallback markup stripping in `docx_to_pdf`: the chained
`.replace('<b>', '') ... .replace('</u>', '')` calls, applied in source
order. -/
def stripMarkers (s : String) : String :=
  String.mk (replaceAll "</u>".data []
    (replaceAll "<u>".data []
      (replaceAll "</i>".data []
        (replaceAll "<i>".data []
          (replaceAll "</b>".data []
            (replaceAll "<b>".data [] s.data))))))

/-- One iteration of the paragraph loop of `docx_to_pdf`, producing the
flowable appended to `story` (or `none` when the loop raises past its
handler).  `parOk` is the oracle for whether `Paragraph(text, style)`
construction succeeds.  An all-whitespace text (Python's
`not text.strip()`) yields a 0.2-inch spacer; otherwise the styled text is
tried, and on failure the markup-stripped text is tried in the same style;
if that construction also raises, the exception propagates (`none`). -/
def paraFlowable (parOk : String → PStyle → Bool) (para : Paragraph) : Option Flowable :=
  let text := parse_docx_paragraph para.runs
  if text.data.all Char.isWhitespace then some (.spacer (72 / 5))
  else
    let style := styleFor para
    if parOk text style then some (.par text style)
    else if parOk (stripMarkers text) style then some (.par (stripMarkers text) style)
    else none

/-- The paragraph loop of `docx_to_pdf`: flowables are appended in order;
the first construction failure that escapes the per-paragraph handler
aborts the whole loop. -/
def buildStory (parOk : String → PStyle → Bool) : List Paragraph → Option (List Flowable)
  | [] => some []
  | para :: rest =>
    match paraFlowable parOk para, buildStory parOk rest with
    | some f, some fs => some (f :: fs)
    | _, _ => none

/-- The table loop of `docx_to_pdf`: each table becomes a grid of trimmed
cell text followed by a 0.3-inch spacer; a table whose row list is empty
is skipped entirely. -/
def tableFlowables (tables : List (List (List String))) : List Flowable :=
  tables.foldl (fun story tbl =>
    let table_data := tbl.map (fun row => row.map (fun cell => cell.trim))
    if table_data.isEmpty then story
    else story ++ [Flowable.table table_data, Flowable.spacer (108 / 5)]) []

/-- Oracle for the external effects of `docx_to_pdf`: whether
`Document(input_path)` raises, whether each `Paragraph(text, style)`
construction succeeds, whether `pdf_doc.build(story)` succeeds, and the
size `os.path.getsize` reports for the written output. -/
structure DocxEnv where
  openErr : Option String
  parOk : String → PStyle → Bool
  buildOk : Bool
  outputSize : ℕ

/-- The JSON dictionary `docx_to_pdf` returns. -/
inductive DocxResult where
  | ok (paragraphs tables output_size : ℕ)
  | err (msg : String)
  deriving DecidableEq, BEq

/-- The `success` field of the returned dictionary. -/
def DocxResult.success : DocxResult → Bool
  | .ok _ _ _ => true
  | .err _ => false

/-- A parsed DOCX document: its paragraph sequence and its table sequence,
each table a grid of cell text. -/
structure DocxFile where
  paragraphs : List Paragraph
  tables : List (List (List String))
  deriving DecidableEq, BEq

/-- The observable outcome of `docx_to_pdf`: the returned dictionary and
the story the PDF was built from (absent when the conversion failed before
the build). -/
structure DocxOutcome where
  result : DocxResult
  written : Option (List Flowable)
  deriving DecidableEq, BEq

/-- Shallow embedding of `docx_to_pdf` from `docx_to_pdf.py`: load the
document, translate every paragraph (aborting on an escaped construction
failure), append the table flowables, build the PDF, and report paragraph
count, table count and output size; any raised exception is caught and
reported as a failure dictionary. -/
def docx_to_pdf (env : DocxEnv) (doc : DocxFile) : DocxOutcome :=
  match env.openErr with
  | some e => ⟨.err e, none⟩
  | none =>
    match buildStory env.parOk doc.paragraphs with
    | none => ⟨.err "paragraph construction failed", none⟩
    | some story =>
      if env.buildOk then
        ⟨.ok doc.paragraphs.length doc.tables.length env.outputSize,
          some (story ++ tableFlowables doc.tables)⟩
      else ⟨.err "document build failed", none⟩

lemma paraFlowable_fallback (parOk : String → PStyle → Bool) (para : Paragraph)
    (hw : (parse_docx_paragraph para.runs).data.all Char.isWhitespace = false)
    (hfail : parOk (parse_docx_paragraph para.runs) (styleFor para) = false)
    (hretry : parOk (stripMarkers (parse_docx_paragraph para.runs)) (styleFor para) = true) :
    paraFlowable parOk para =
      some (.par (stripMarkers (parse_docx_paragraph para.runs)) (styleFor para)) := by
  unfold paraFlowable
  simp only [hw, hfail, hretry, Bool.false_eq_true, if_false, if_true]

lemma paraFlowable_isSome (parOk : String → PStyle → Bool) (para : Paragraph)
    (h : parOk (parse_docx_paragraph para.runs) (styleFor para) = false →
      parOk (stripMarkers (parse_docx_paragraph para.runs)) (styleFor para) = true) :
    paraFlowable parOk para ≠ none := by
  unfold paraFlowable
  by_cases hw : (parse_docx_paragraph para.runs).data.all Char.isWhitespace
  · simp [hw]
  · simp only [hw, Bool.false_eq_true, if_false]
    by_cases h1 : parOk (parse_docx_paragraph para.runs) (styleFor para)
    · simp [h1]
    · simp [h1, h (by simpa using h1)]

lemma buildStory_isSome (parOk : String → PStyle → Bool) (paras : List Paragraph)
    (h : ∀ p ∈ paras, paraFlowable parOk p ≠ none) :
    ∃ fs, buildStory parOk paras = some fs := by
  induction paras with
  | nil => exact ⟨[], rfl⟩
  | cons hd tl ih =>
    obtain ⟨fs, hfs⟩ := ih fun p hp => h p (List.mem_cons_of_mem hd hp)
    rcases hf : paraFlowable parOk hd with - | f
    · exact absurd hf (h hd (List.mem_cons_self hd tl))
    · exact ⟨f :: fs, by unfold buildStory; rw [hf, hfs]⟩

/-- C9: when every paragraph whose styled construction fails succeeds on
the markup-stripped retry (and the document opens and builds normally),
the conversion completes with a success dictionary; and each such failing
paragraph contributes the markup-stripped text in the same style. -/
theorem c9_theorem (env : DocxEnv) (doc : DocxFile)
    (ho : env.openErr = none)
    (hb : env.buildOk = true)
    (hfb : ∀ p ∈ doc.paragraphs,
      env.parOk (parse_docx_paragraph p.runs) (styleFor p) = false →
      env.parOk (stripMarkers (parse_docx_paragraph p.runs)) (styleFor p) = true) :
    (docx_to_pdf env doc).result =
      DocxResult.ok doc.paragraphs.length doc.tables.length env.outputSize ∧
    (∀ p ∈ doc.paragraphs,
      (parse_docx_paragraph p.runs).data.all Char.isWhitespace = false →
      env.parOk (parse_docx_paragraph p.runs) (styleFor p) = false →
      paraFlowable env.parOk p =
        some (.par (stripMarkers (parse_docx_paragraph p.runs)) (styleFor p))) := by
  constructor
  · obtain ⟨fs, hfs⟩ := buildStory_isSome env.parOk doc.paragraphs
      (fun p hp => paraFlowable_isSome env.parOk p (hfb p hp))
    unfold docx_to_pdf
    rw [ho, hfs, hb]
    simp
  · intro p hp hw hfail
    exact paraFlowable_fallback env.parOk p hw hfail (hfb p hp hfail)

/-- The single paragraph of the C9 witness document: one bold run "x" in a
normal style. -/
def p9 : Paragraph := ⟨[⟨"x", true, false, false⟩], "Normal", none⟩

/-- The C9 witness document: one paragraph, no tables. -/
def doc9 : DocxFile := ⟨[p9], []⟩

/-- The C9 witness environment: `Paragraph(text, style)` succeeds exactly
on the plain text "x" (so the marked-up "<b>x</b>" fails and the stripped
retry succeeds), and the build writes 5 bytes. -/
def env9 : DocxEnv := ⟨none, fun t _ => t == "x", true, 5⟩

/-- C9 witness: the conversion of the concrete one-paragraph document
completes successfully even though the styled construction of its only
paragraph fails, and that paragraph is retried as the stripped text "x". -/
theorem c9_witness :
    (docx_to_pdf env9 doc9).result = DocxResult.ok 1 0 5 ∧
    paraFlowable env9.parOk p9 =
      some (.par (stripMarkers (parse_docx_paragraph p9.runs)) (styleFor p9)) ∧
    stripMarkers (parse_docx_paragraph p9.runs) = "x" := by
  have hfb : ∀ p ∈ doc9.paragraphs,
      env9.parOk (parse_docx_paragraph p.runs) (styleFor p) = false →
      env9.parOk (stripMarkers (parse_docx_paragraph p.runs)) (styleFor p) = true := by
    intro p hp hfail
    simp only [doc9, List.mem_singleton] at hp
    subst hp
    decide
  have hp9 : p9 ∈ doc9.paragraphs := by simp [doc9]
  exact ⟨(c9_theorem env9 doc9 rfl rfl hfb).1,
    (c9_theorem env9 doc9 rfl rfl hfb).2 p9 hp9 (by decide) (by decide),
    by decide⟩

/-- The JSON objects `main` of `docx_to_pdf.py` prints: the usage error,
the file-not-found error (carrying its message), or the conversion's own
result dictionary. -/
inductive DocxReport where
  | usage
  | notFound (msg : String)
  | result (r : DocxResult)
  deriving DecidableEq, BEq

/-- The `success` field of a printed report. -/
def DocxReport.success : DocxReport → Bool
  | .usage => false
  | .notFound _ => false
  | .result r => r.success

/-- The observable outcome of one invocation of the DOCX converter CLI:
the reports printed to standard output, the process exit code, and whether
`docx_to_pdf` was invoked at all. -/
structure DocxMainOut where
  printed : List DocxReport
  exitCode : ℕ
  conversionAttempted : Bool
  deriving DecidableEq, BEq

/-- Shallow embedding of `main` from `docx_to_pdf.py`: fewer than two
arguments after the program name print a usage error and exit 1; a
non-existent input file prints the file-not-found error and exits 1 before
any conversion work; otherwise the conversion runs, its result is printed,
and the exit code is 0 exactly when its `success` field is true.  `argv`
includes the program name at index 0; `fileExists` is the oracle for
`os.path.exists` and `loadDoc` for the parsed document and library
behaviour at the given paths. -/
def docxMain (argv : List String) (fileExists : String → Bool)
    (loadDoc : String → String → DocxEnv × DocxFile) : DocxMainOut :=
  if argv.length < 3 then ⟨[.usage], 1, false⟩
  else
    if fileExists (argv.getD 1 "") then
      ⟨[.result (docx_to_pdf (loadDoc (argv.getD 1 "") (argv.getD 2 "")).1
          (loadDoc (argv.getD 1 "") (argv.getD 2 "")).2).result],
        if (docx_to_pdf (loadDoc (argv.getD 1 "") (argv.getD 2 "")).1
            (loadDoc (argv.getD 1 "") (argv.getD 2 "")).2).result.success then 0 else 1,
        true⟩
    else
      ⟨[.notFound ("Input file not found: " ++ argv.getD 1 "")], 1, false⟩

/-- C8: whenever the converter is invoked with enough arguments but the
input path does not reference an existing file, it prints exactly the
file-not-found report with the message "Input file not found: <path>" and
exits 1, without attempting any conversion. -/
theorem c8_theorem (argv : List String) (fileExists : String → Bool)
    (loadDoc : String → String → DocxEnv × DocxFile)
    (hlen : 3 ≤ argv.length)
    (hmiss : fileExists (argv.getD 1 "") = false) :
    docxMain argv fileExists loadDoc =
      ⟨[.notFound ("Input file not found: " ++ argv.getD 1 "")], 1, false⟩ := by
  unfold docxMain
  rw [if_neg (by omega)]
  simp only [hmiss, Bool.false_eq_true, if_false]

/-- C8 witness: a concrete invocation whose input file does not exist. -/
theorem c8_witness :
    docxMain ["docx_to_pdf.py", "in.docx", "out.pdf"] (fun _ => false)
        (fun _ _ => (⟨none, fun _ _ => true, true, 0⟩, ⟨[], []⟩)) =
      ⟨[.notFound ("Input file not found: " ++ "in.docx")], 1, false⟩ :=
  c8_theorem ["docx_to_pdf.py", "in.docx", "out.pdf"] (fun _ => false)
    (fun _ _ => (⟨none, fun _ _ => true, true, 0⟩, ⟨[], []⟩)) (by decide) rfl

/-- An RGB color with components in [0,1]. -/
structure Color3 where
  r : ℚ
  g : ℚ
  b : ℚ
  deriving DecidableEq, BEq

/-- The options dictionary passed to `add_watermark`: each key may be
absent, in which case `options.get` supplies the default. -/
structure WmOptionsIn where
  opacity : Option ℚ
  fontSize : Option ℚ
  rotation : Option ℚ
  position : Option String
  color : Option Color3

/-- The empty options dictionary (`{}`). -/
def emptyOptions : WmOptionsIn := ⟨none, none, none, none, none⟩

/-- A 2-D affine transform: `(x, y)` maps to
`(xx*x + xy*y + dx, yx*x + yy*y + dy)`. -/
structure Affine where
  xx : ℚ
  xy : ℚ
  yx : ℚ
  yy : ℚ
  dx : ℚ
  dy : ℚ
  deriving DecidableEq, BEq

/-- Apply an affine transform to a point. -/
def Affine.apply (m : Affine) (p : ℚ × ℚ) : ℚ × ℚ :=
  (m.xx * p.1 + m.xy * p.2 + m.dx, m.yx * p.1 + m.yy * p.2 + m.dy)

/-- The identity transform. -/
def Affine.idA : Affine := ⟨1, 0, 0, 1, 0, 0⟩

/-- Composition: apply `n` first, then `m`. -/
def Affine.comp (m n : Affine) : Affine :=
  ⟨m.xx * n.xx + m.xy * n.yx,
   m.xx * n.xy + m.xy * n.yy,
   m.yx * n.xx + m.yy * n.yx,
   m.yx * n.xy + m.yy * n.yy,
   m.xx * n.dx + m.xy * n.dy + m.dx,
   m.yx * n.dx + m.yy * n.dy + m.dy⟩

/-- Translation by `(dx, dy)`. -/
def translationA (dx dy : ℚ) : Affine := ⟨1, 0, 0, 1, dx, dy⟩

/-- Rotation about the origin whose cosine is `c` and sine is `s`:
`(x, y)` maps to `(c*x - s*y, s*x + c*y)`. -/
def rotationA (c s : ℚ) : Affine := ⟨c, -s, s, c, 0, 0⟩

/-- The reportlab canvas calls `add_watermark` performs on the overlay.
`rotate` carries the cosine and sine of the requested angle, since the
canvas converts degrees through trigonometric functions. -/
inductive CanvasOp where
  | setFillColor (col : Color3) (alpha : ℚ)
  | setFont (fontName : String) (size : ℚ)
  | saveState
  | restoreState
  | translate (dx dy : ℚ)
  | rotate (c s : ℚ)
  | drawCentredString (x y : ℚ) (text : String)

/-- A string drawn on the overlay: its text, the device-space position of
its anchor (the horizontal center of the text at the baseline, the point
`drawCentredString` centers the text on), and the graphics state it was
drawn with. -/
structure DrawnText where
  text : String
  anchor : ℚ × ℚ
  fontName : String
  fontSize : ℚ
  color : Color3
  alpha : ℚ
  deriving DecidableEq, BEq

/-- The canvas interpreter state: current transform, the saved-state
stack, the current fill color and font, and the strings drawn so far. -/
structure CanvasState where
  ctm : Affine
  stack : List Affine
  fillColor : Color3
  fillAlpha : ℚ
  fontName : String
  fontSize : ℚ
  drawn : List DrawnText
  deriving DecidableEq, BEq

/-- A fresh canvas: identity transform, reportlab's default font. -/
def initCanvas : CanvasState := ⟨Affine.idA, [], ⟨0, 0, 0⟩, 1, "Helvetica", 12, []⟩

/-- One canvas operation.  `translate` and `rotate` concatenate onto the
current transform (later operations act in the newly transformed
coordinates); `drawCentredString` records the device-space image of its
anchor point under the current transform. -/
def runOp (st : CanvasState) : CanvasOp → CanvasState
  | .setFillColor col a => { st with fillColor := col, fillAlpha := a }
  | .setFont n sz => { st with fontName := n, fontSize := sz }
  | .saveState => { st with stack := st.ctm :: st.stack }
  | .restoreState =>
    match st.stack with
    | [] => st
    | m :: rest => { st with ctm := m, stack := rest }
  | .translate dx dy => { st with ctm := st.ctm.comp (translationA dx dy) }
  | .rotate c s => { st with ctm := st.ctm.comp (rotationA c s) }
  | .drawCentredString x y text =>
    { st with drawn := st.drawn ++
        [⟨text, st.ctm.apply (x, y), st.fontName, st.fontSize, st.fillColor, st.fillAlpha⟩] }

/-- The canvas calls of one iteration of the page loop of `add_watermark`:
set the RGBA fill color and the bold font, then the position branch —
`diagonal` saves state, translates to the page center, rotates, and draws
the text centered at the new origin; `center`, `top` and `bottom` draw the
text centered at their fixed points; any other position string draws
nothing. -/
def pageOps (position : String) (page_width page_height : ℚ) (text : String)
    (font_size opacity : ℚ) (col : Color3) (c s : ℚ) : List CanvasOp :=
  [CanvasOp.setFillColor col opacity, CanvasOp.setFont "Helvetica-Bold" font_size] ++
  (if position = "diagonal" then
    [CanvasOp.saveState, CanvasOp.translate (page_width / 2) (page_height / 2),
     CanvasOp.rotate c s, CanvasOp.drawCentredString 0 0 text, CanvasOp.restoreState]
  else if position = "center" then
    [CanvasOp.drawCentredString (page_width / 2) (page_height / 2) text]
  else if position = "top" then
    [CanvasOp.drawCentredString (page_width / 2) (page_height - 50) text]
  else if position = "bottom" then
    [CanvasOp.drawCentredString (page_width / 2) 50 text]
  else [])

/-- The strings drawn on the overlay of one page. -/
def drawOverlay (position : String) (w h : ℚ) (text : String)
    (font_size opacity : ℚ) (col : Color3) (c s : ℚ) : List DrawnText :=
  ((pageOps position w h text font_size opacity col c s).foldl runOp initCanvas).drawn

/-- A PDF page: the width and height of its media box. -/
structure Page where
  width : ℚ
  height : ℚ
  deriving DecidableEq, BEq

/-- The JSON dictionary `add_watermark` returns: the success dictionary
with its three payload fields, or the failure dictionary carrying
`str(e)`. -/
inductive WmResult where
  | ok (pages : ℕ) (watermark position : String)
  | err (msg : String)
  deriving DecidableEq, BEq

/-- The `success` field of the returned dictionary. -/
def WmResult.success : WmResult → Bool
  | .ok _ _ _ => true
  | .err _ => false

/-- The observable outcome of `add_watermark`: the returned dictionary and
the document written to the output path — each original page paired with
the overlay merged onto it — absent when the operation raised before the
write completed. -/
structure WmOutcome where
  report : WmResult
  written : Option (List (Page × List DrawnText))
  deriving DecidableEq, BEq

/-- Oracle for the external effects of `add_watermark` on one input/output
path pair: whether `PdfReader(input_path)` raises, the pages it yields
otherwise, whether the merge work for the page at a given index raises,
and whether opening and writing the output file raises. -/
structure WmEnv where
  readErr : Option String
  pages : List Page
  mergeErr : ℕ → Option String
  writeErr : Option String

/-- The page loop of `add_watermark`: pages are processed in order; at
each index the overlay is drawn and merged onto the page, which is then
appended to the writer; the first raised merge failure aborts the loop. -/
def mergePages (mergeErr : ℕ → Option String) (overlay : Page → List DrawnText) :
    ℕ → List Page → Except String (List (Page × List DrawnText))
  | _, [] => Except.ok []
  | i, page :: rest =>
    match mergeErr i with
    | some e => Except.error e
    | none =>
      match mergePages mergeErr overlay (i + 1) rest with
      | .error e => Except.error e
      | .ok written => Except.ok ((page, overlay page) :: written)

/-- Shallow embedding of `add_watermark` from `pdf_helper.py`: resolve the
five options with their defaults, open the input, then for every page (in
order) build the overlay canvas and merge it onto the page, write the
output document, and report the page count, the text and the position
used; any exception raised by the reader, by a per-page merge, or by the
output write is caught by the function's handler and reported as a
failure dictionary.  `cosd` and `sind` are the oracles for the
trigonometric conversion of the rotation angle in degrees. -/
def add_watermark (env : WmEnv) (text : String) (options : WmOptionsIn)
    (cosd sind : ℚ → ℚ) : WmOutcome :=
  let opacity := options.opacity.getD (3 / 10)
  let font_size := options.fontSize.getD 48
  let rotation := options.rotation.getD 45
  let position := options.position.getD "diagonal"
  let color := options.color.getD ⟨1 / 2, 1 / 2, 1 / 2⟩
  match env.readErr with
  | some e => ⟨.err e, none⟩
  | none =>
    match mergePages env.mergeErr (fun page =>
        drawOverlay position page.width page.height text font_size opacity color
          (cosd rotation) (sind rotation)) 0 env.pages with
    | .error e => ⟨.err e, none⟩
    | .ok written =>
      match env.writeErr with
      | some e => ⟨.err e, none⟩
      | none => ⟨.ok env.pages.length text position, some written⟩

lemma mergePages_ok (mergeErr : ℕ → Option String) (hmerge : ∀ i, mergeErr i = none)
    (overlay : Page → List DrawnText) :
    ∀ (i : ℕ) (pages : List Page),
      mergePages mergeErr overlay i pages =
        Except.ok (pages.map (fun page => (page, overlay page))) := by
  intro i pages
  induction pages generalizing i with
  | nil => rfl
  | cons hd tl ih =>
    unfold mergePages
    rw [hmerge i, ih (i + 1)]
    rfl

lemma add_watermark_ok (env : WmEnv) (text : String) (options : WmOptionsIn)
    (cosd sind : ℚ → ℚ)
    (hread : env.readErr = none)
    (hmerge : ∀ i, env.mergeErr i = none)
    (hwrite : env.writeErr = none) :
    add_watermark env text options cosd sind =
      ⟨.ok env.pages.length text (options.position.getD "diagonal"),
        some (env.pages.map (fun page =>
          (page, drawOverlay (options.position.getD "diagonal") page.width page.height text
            (options.fontSize.getD 48) (options.opacity.getD (3 / 10))
            (options.color.getD ⟨1 / 2, 1 / 2, 1 / 2⟩)
            (cosd (options.rotation.getD 45)) (sind (options.rotation.getD 45)))))⟩ := by
  simp only [add_watermark, hread, hwrite, mergePages_ok env.mergeErr hmerge]

/-- C6: for every page size and every rotation (any cosine/sine pair the
canvas derives from the angle), the `diagonal` overlay draws exactly one
string, whose anchor — the point the text is drawn horizontally centered
on after translating the origin to the page center and rotating — lands in
device space exactly at the page's geometric center `(w/2, h/2)`. -/
theorem c6_theorem (w h : ℚ) (text : String) (font_size opacity : ℚ)
    (col : Color3) (c s : ℚ) :
    drawOverlay "diagonal" w h text font_size opacity col c s =
      [⟨text, (w / 2, h / 2), "Helvetica-Bold", font_size, col, opacity⟩] := by
  unfold drawOverlay pageOps
  norm_num [List.foldl_cons, runOp, initCanvas, Affine.comp, Affine.apply,
    Affine.idA, translationA, rotationA]

/-- C7: whenever the reader, every per-page merge, and the output write
succeed, `add_watermark` returns success with `pages` equal to the input
page count, and writes each input page, in order, merged with its own
overlay; a zero-page input performs no per-page work — the merge oracle is
never consulted — and still succeeds with `pages = 0`. -/
theorem c7_theorem (env : WmEnv) (text : String) (options : WmOptionsIn)
    (cosd sind : ℚ → ℚ)
    (hread : env.readErr = none)
    (hmerge : ∀ i, env.mergeErr i = none)
    (hwrite : env.writeErr = none) :
    (add_watermark env text options cosd sind).report.success = true ∧
    (add_watermark env text options cosd sind).report =
      WmResult.ok env.pages.length text (options.position.getD "diagonal") ∧
    (add_watermark env text options cosd sind).written =
      some (env.pages.map (fun page =>
        (page, drawOverlay (options.position.getD "diagonal") page.width page.height text
          (options.fontSize.getD 48) (options.opacity.getD (3 / 10))
          (options.color.getD ⟨1 / 2, 1 / 2, 1 / 2⟩)
          (cosd (options.rotation.getD 45)) (sind (options.rotation.getD 45))))) ∧
    (∀ mergeErr : ℕ → Option String,
      (add_watermark ⟨none, [], mergeErr, none⟩ text options cosd sind).report =
        WmResult.ok 0 text (options.position.getD "diagonal") ∧
      (add_watermark ⟨none, [], mergeErr, none⟩ text options cosd sind).written =
        some []) := by
  rw [add_watermark_ok env text options cosd sind hread hmerge hwrite]
  exact ⟨rfl, rfl, rfl, fun mergeErr => ⟨rfl, rfl⟩⟩

/-- The C7 witness environment: one US-letter page, no failures. -/
def env7 : WmEnv := ⟨none, [⟨612, 792⟩], fun _ => none, none⟩

/-- C7 witness: a concrete one-page watermark invocation with empty
options succeeds with `pages = 1` and writes the page merged with its
diagonal overlay. -/
theorem c7_witness :
    (add_watermark env7 "WM" emptyOptions (fun _ => 1) (fun _ => 0)).report.success = true ∧
    (add_watermark env7 "WM" emptyOptions (fun _ => 1) (fun _ => 0)).report =
      WmResult.ok 1 "WM" "diagonal" ∧
    (add_watermark env7 "WM" emptyOptions (fun _ => 1) (fun _ => 0)).written =
      some [(⟨612, 792⟩,
        drawOverlay "diagonal" 612 792 "WM" 48 (3 / 10) ⟨1 / 2, 1 / 2, 1 / 2⟩ 1 0)] :=
  ⟨(c7_theorem env7 "WM" emptyOptions (fun _ => 1) (fun _ => 0) rfl (fun _ => rfl) rfl).1,
   (c7_theorem env7 "WM" emptyOptions (fun _ => 1) (fun _ => 0) rfl (fun _ => rfl) rfl).2.1,
   (c7_theorem env7 "WM" emptyOptions (fun _ => 1) (fun _ => 0) rfl (fun _ => rfl) rfl).2.2.1⟩

lemma drawOverlay_unknown (position : String) (w h : ℚ) (text : String)
    (font_size opacity : ℚ) (col : Color3) (c s : ℚ)
    (h1 : position ≠ "diagonal") (h2 : position ≠ "center")
    (h3 : position ≠ "top") (h4 : position ≠ "bottom") :
    drawOverlay position w h text font_size opacity col c s = [] := by
  unfold drawOverlay pageOps
  rw [if_neg h1, if_neg h2, if_neg h3, if_neg h4]
  rfl

/-- C10: for every position string outside the four recognized modes, an
invocation whose reader, merges and write succeed still succeeds — each
page is merged with a blank overlay on which nothing was drawn — and the
report echoes the unrecognized position string verbatim rather than
failing or falling back to a known mode. -/
theorem c10_theorem (env : WmEnv) (text : String) (options : WmOptionsIn)
    (cosd sind : ℚ → ℚ)
    (hread : env.readErr = none)
    (hmerge : ∀ i, env.mergeErr i = none)
    (hwrite : env.writeErr = none)
    (hpos : options.position.getD "diagonal" ∉
      (["diagonal", "center", "top", "bottom"] : List String)) :
    (add_watermark env text options cosd sind).report =
      WmResult.ok env.pages.length text (options.position.getD "diagonal") ∧
    (add_watermark env text options cosd sind).written =
      some (env.pages.map (fun page => (page, ([] : List DrawnText)))) := by
  simp only [List.mem_cons, List.mem_singleton, not_or, List.not_mem_nil] at hpos
  obtain ⟨h1, h2, h3, h4, -⟩ := hpos
  rw [add_watermark_ok env text options cosd sind hread hmerge hwrite]
  refine ⟨rfl, congrArg some (List.map_congr_left fun page _ => ?_)⟩
  rw [drawOverlay_unknown _ _ _ _ _ _ _ _ _ h1 h2 h3 h4]

/-- The C10 witness options: the unrecognized position "topleft". -/
def optsTopLeft : WmOptionsIn := ⟨none, none, none, some "topleft", none⟩

/-- The C10 witness environment: one US-letter page, no failures. -/
def env10 : WmEnv := ⟨none, [⟨612, 792⟩], fun _ => none, none⟩

/-- C10 witness: a concrete one-page watermark invocation with the
unrecognized position "topleft" succeeds, echoes "topleft", and merges the
page with an empty overlay. -/
theorem c10_witness :
    (add_watermark env10 "DRAFT" optsTopLeft (fun _ => 1) (fun _ => 0)).report =
      WmResult.ok 1 "DRAFT" "topleft" ∧
    (add_watermark env10 "DRAFT" optsTopLeft (fun _ => 1) (fun _ => 0)).written =
      some [(⟨612, 792⟩, ([] : List DrawnText))] :=
  c10_theorem env10 "DRAFT" optsTopLeft (fun _ => 1) (fun _ => 0) rfl (fun _ => rfl) rfl
    (by decide)

/-- The JSON objects `main` of `pdf_helper.py` prints: the three usage
errors, the unknown-operation error, the top-level exception handler's
error (raised in practice by `json.loads` on a malformed options
argument), or an operation's own result dictionary. -/
inductive PdfReport where
  | usageNoOp
  | usageCompress
  | usageWatermark
  | unknownOp (operation : String)
  | topError (msg : String)
  | compressR (r : CompressResult)
  | watermarkR (r : WmResult)
  deriving DecidableEq, BEq

/-- The `success` field of a printed report. -/
def PdfReport.success : PdfReport → Bool
  | .compressR r => r.success
  | .watermarkR r => r.success
  | _ => false

/-- The observable outcome of one invocation of the PDF helper CLI: the
reports printed to standard output and the process exit code. -/
structure PdfInvocation where
  printed : List PdfReport
  exitCode : ℕ
  deriving DecidableEq, BEq

/-- Whether `json.loads` on the options argument succeeded. -/
def parsedOk : Except String WmOptionsIn → Bool
  | .ok _ => true
  | .error _ => false

/-- Shallow embedding of `main` from `pdf_helper.py`.  `argv` includes the
program name at index 0; `fsC` maps the compress input/output paths to the
compress oracle, `fsW` maps the watermark input/output paths to the
watermark oracle, and `parseOptions` models `json.loads` on the options
argument (invoked
only when a sixth argument is present; its failure is caught by the
top-level handler).  After a compress or watermark operation returns, its
result is printed and control falls through to the end of `main` without
calling `sys.exit`, so the process exits 0 regardless of the result's
`success` field; only the usage, unknown-operation and exception paths
call `sys.exit(1)`. -/
def pdfMain (argv : List String) (fsC : String → String → CompressEnv)
    (fsW : String → String → WmEnv)
    (parseOptions : String → Except String WmOptionsIn)
    (cosd sind : ℚ → ℚ) : PdfInvocation :=
  if argv.length < 2 then ⟨[.usageNoOp], 1⟩
  else
    if argv.getD 1 "" = "compress" then
      if argv.length < 5 then ⟨[.usageCompress], 1⟩
      else
        ⟨[.compressR (compress_pdf (fsC (argv.getD 2 "") (argv.getD 3 "")) (argv.getD 4 ""))], 0⟩
    else if argv.getD 1 "" = "watermark" then
      if argv.length < 5 then ⟨[.usageWatermark], 1⟩
      else
        match (if 5 < argv.length then parseOptions (argv.getD 5 "") else Except.ok emptyOptions) with
        | .error e => ⟨[.topError e], 1⟩
        | .ok options =>
          ⟨[.watermarkR (add_watermark (fsW (argv.getD 2 "") (argv.getD 3 ""))
              (argv.getD 4 "") options cosd sind).report], 0⟩
    else ⟨[.unknownOp (argv.getD 1 "")], 1⟩

/-- The condition under which the PDF helper CLI exits 0: an operation was
dispatched and ran to completion — `compress` with enough arguments, or
`watermark` with enough arguments whose options argument (when present)
parses. -/
def pdfExitZero (argv : List String)
    (parseOptions : String → Except String WmOptionsIn) : Bool :=
  decide (2 ≤ argv.length) &&
  ((decide (argv.getD 1 "" = "compress") && decide (5 ≤ argv.length)) ||
   (decide (argv.getD 1 "" = "watermark") && decide (5 ≤ argv.length) &&
     (decide (argv.length ≤ 5) || parsedOk (parseOptions (argv.getD 5 "")))))

/-- C1 (amended): every invocation of either CLI tool prints exactly one
JSON report.  The DOCX converter's exit code is 0 exactly when the printed
report's `success` field is true.  The PDF tool exits 1 on usage errors,
unknown operations and top-level exceptions (malformed options JSON), but
once an operation function returns, its report is printed and the exit
code is 0 — characterised by `pdfExitZero` — regardless of the report's
`success` field. -/
theorem c1_theorem :
    (∀ (argv : List String) (fileExists : String → Bool)
        (loadDoc : String → String → DocxEnv × DocxFile),
      (docxMain argv fileExists loadDoc).printed.length = 1 ∧
      ((docxMain argv fileExists loadDoc).exitCode = 0 ↔
        (docxMain argv fileExists loadDoc).printed.map DocxReport.success = [true])) ∧
    (∀ (argv : List String) (fsC : String → String → CompressEnv)
        (fsW : String → String → WmEnv)
        (parseOptions : String → Except String WmOptionsIn) (cosd sind : ℚ → ℚ),
      (pdfMain argv fsC fsW parseOptions cosd sind).printed.length = 1 ∧
      ((pdfMain argv fsC fsW parseOptions cosd sind).exitCode = 0 ↔
        pdfExitZero argv parseOptions = true)) := by
  constructor
  · intro argv fe ld
    unfold docxMain
    by_cases h3 : argv.length < 3
    · rw [if_pos h3]
      exact ⟨rfl, by simp [DocxReport.success]⟩
    · rw [if_neg h3]
      by_cases hfe : fe (argv.getD 1 "") = true
      · rw [if_pos hfe]
        refine ⟨rfl, ?_⟩
        have hres : ∀ r : DocxResult, (DocxReport.result r).success = r.success :=
          fun _ => rfl
        simp only [List.map_cons, List.map_nil, hres]
        cases (docx_to_pdf (ld (argv.getD 1 "") (argv.getD 2 "")).1
            (ld (argv.getD 1 "") (argv.getD 2 "")).2).result.success
        · simp
        · simp
      · rw [if_neg hfe]
        refine ⟨rfl, ?_⟩
        simp [DocxReport.success]
  · intro argv fsC fsW parseOptions cosd sind
    unfold pdfMain
    by_cases hl2 : argv.length < 2
    · rw [if_pos hl2]
      refine ⟨rfl, ?_⟩
      have hd : (2 ≤ argv.length) = False := eq_false (by omega)
      simp [pdfExitZero, hd]
    · rw [if_neg hl2]
      have h2 : (2 ≤ argv.length) = True := eq_true (by omega)
      by_cases hc : argv.getD 1 "" = "compress"
      · rw [if_pos hc]
        by_cases hl5 : argv.length < 5
        · rw [if_pos hl5]
          refine ⟨rfl, ?_⟩
          have h5 : (5 ≤ argv.length) = False := eq_false (by omega)
          simp only [pdfExitZero, eq_true hc, h2, h5, decide_True, decide_False,
            Bool.true_and, Bool.and_false, Bool.false_and, Bool.false_or,
            Bool.or_false]
          simp
        · rw [if_neg hl5]
          refine ⟨rfl, ?_⟩
          have h5 : (5 ≤ argv.length) = True := eq_true (by omega)
          simp only [pdfExitZero, eq_true hc, h2, h5, decide_True,
            Bool.true_and, Bool.and_true, Bool.true_or]
      · rw [if_neg hc]
        by_cases hw : argv.getD 1 "" = "watermark"
        · rw [if_pos hw]
          by_cases hl5 : argv.length < 5
          · rw [if_pos hl5]
            refine ⟨rfl, ?_⟩
            have h5 : (5 ≤ argv.length) = False := eq_false (by omega)
            simp only [pdfExitZero, eq_false hc, eq_true hw, h2, h5, decide_True,
              decide_False, Bool.true_and, Bool.false_and, Bool.and_false,
              Bool.false_or, Bool.or_false]
            simp
          · rw [if_neg hl5]
            by_cases h6 : 5 < argv.length
            · rw [if_pos h6]
              have h5 : (5 ≤ argv.length) = True := eq_true (by omega)
              have hle : (argv.length ≤ 5) = False := eq_false (by omega)
              rcases hpo : parseOptions (argv.getD 5 "") with e | opts
              · refine ⟨rfl, ?_⟩
                simp only [pdfExitZero, eq_false hc, eq_true hw, h2, h5, hle, hpo,
                  parsedOk, decide_True, decide_False, Bool.true_and, Bool.false_and,
                  Bool.false_or, Bool.or_false]
                simp
              · refine ⟨rfl, ?_⟩
                simp only [pdfExitZero, eq_false hc, eq_true hw, h2, h5, hle, hpo,
                  parsedOk, decide_True, decide_False, Bool.true_and, Bool.false_and,
                  Bool.false_or, Bool.or_false, Bool.and_true, Bool.true_or, Bool.or_true]
            · rw [if_neg h6]
              refine ⟨rfl, ?_⟩
              have h5 : (5 ≤ argv.length) = True := eq_true (by omega)
              have hle : (argv.length ≤ 5) = True := eq_true (by omega)
              simp only [pdfExitZero, eq_false hc, eq_true hw, h2, h5, hle,
                decide_True, decide_False, Bool.true_and, Bool.false_and,
                Bool.false_or, Bool.true_or, Bool.and_true]
        · rw [if_neg hw]
          refine ⟨rfl, ?_⟩
          simp only [pdfExitZero, eq_false hc, eq_false hw, decide_False,
            Bool.false_and, Bool.false_or, Bool.or_false, Bool.and_false]
          simp

/-- A concrete compress environment in which `Pdf.open` raises (the input
file does not exist). -/
def cFailEnv : CompressEnv :=
  ⟨some "No such file or directory", fun _ => Except.error "unused", 0⟩

/-- C1 counterexample: a concrete `compress` invocation of the PDF helper
whose operation fails prints a report with `success: false` yet the
process exits 0, refuting "exit code 0 if and only if the report's
success field is true" for the PDF tool. -/
theorem c1_counterexample :
    (pdfMain ["pdf_helper.py", "compress", "missing.pdf", "out.pdf", "medium"]
        (fun _ _ => cFailEnv) (fun _ _ => (⟨none, [], fun _ => none, none⟩ : WmEnv))
        (fun _ => Except.ok emptyOptions)
        (fun _ => 1) (fun _ => 0)).printed.map PdfReport.success = [false] ∧
    (pdfMain ["pdf_helper.py", "compress", "missing.pdf", "out.pdf", "medium"]
        (fun _ _ => cFailEnv) (fun _ _ => (⟨none, [], fun _ => none, none⟩ : WmEnv))
        (fun _ => Except.ok emptyOptions)
        (fun _ => 1) (fun _ => 0)).exitCode = 0 :=
  ⟨rfl, rfl⟩
